import Mathlib

/-!
Shallow embedding of `src/api/index.py` (the "Family Risk Radar" app built
around `UnifiedUEDPEngine`).

Modelling conventions:
* Python floats are modelled as real numbers (`ℝ`); the transcendental
  functions `math.exp`, `math.sqrt`, `math.log1p` become `Real.exp`,
  `Real.sqrt`, `Real.log`.  Reals have no NaN, mirroring the spec's reading
  of the formulas as exact arithmetic.
* Each external HTTP/LLM call is replaced by an explicit outcome value
  (`MarketResp`, `PubmedResp`, `WikiResp`, `LlmResp`): a `failure`
  constructor covers every path that lands in the Python `except:` handler
  (network error, timeout, malformed payload), and a `success` constructor
  carries the already-parsed payload fields the code actually reads.
* `re.findall(pat, text, re.IGNORECASE)` for an alternation of literal
  lowercase words is modelled by `countMatches`: a left-to-right scan of the
  lowercased text that, at each position, takes the first alternative that
  matches and skips past it, otherwise advances one character — exactly the
  non-overlapping leftmost semantics of `findall` for these patterns.
* The module-level singletons `engine = UnifiedUEDPEngine()` and
  `history = []` (lines 214–215) are modelled as explicit state threaded
  through `process` / `indexPost`.  The only construction of the engine uses
  the default `omega_ref=0.85`, and `omega_crit` is always `0.368`, so both
  are plain constants here.
-/

/-- Lowercase a character list (models Python `str.lower()` /
`re.IGNORECASE` for the ASCII keyword patterns used by the engine). -/
def lowerList (s : List Char) : List Char := s.map Char.toLower

/-- Does `pat` occur as a contiguous substring of `s`?  Models Python's
`pat in s`. -/
def isSubstr (pat : List Char) : List Char → Bool
  | [] => pat.isEmpty
  | c :: rest => pat.isPrefixOf (c :: rest) || isSubstr pat rest

/-- One fuel-indexed step of the `re.findall` counting scan: at each
position try the alternatives in order; on a match, skip its length,
otherwise advance one character. -/
def countMatchesAux (pats : List (List Char)) : Nat → List Char → Nat
  | 0, _ => 0
  | _ + 1, [] => 0
  | fuel + 1, c :: rest =>
    match pats.find? (fun p => !p.isEmpty && p.isPrefixOf (c :: rest)) with
    | some p => 1 + countMatchesAux pats fuel ((c :: rest).drop p.length)
    | none => countMatchesAux pats fuel rest

/-- Number of non-overlapping, leftmost matches of the literal-word
alternation `pats` in `s` (models `len(re.findall(p1|p2|..., s))`;
the fuel `s.length` is enough since every step consumes at least one
character). -/
def countMatches (pats : List (List Char)) (s : List Char) : Nat :=
  countMatchesAux pats s.length s

/-- The certainty-word pattern of `get_triangulation` (line 52). -/
def intensityWords : List (List Char) :=
  ["definitely".toList, "certainly".toList, "must".toList,
   "absolutely".toList, "guarantee".toList]

/-- The research/evidence-word pattern of `get_triangulation` (line 54). -/
def theoryWords : List (List Char) :=
  ["basic".toList, "need".toList, "survival".toList, "market".toList,
   "data".toList, "research".toList, "proven".toList]

/-- The contradiction/hedge-word pattern of `get_triangulation` (line 56). -/
def contradictionWords : List (List Char) :=
  ["but".toList, "however".toList, "although".toList, "maybe".toList,
   "risk".toList]

/-- `user_intensity` count of `get_triangulation` (line 52). -/
def user_intensityCount (text : String) : Nat :=
  countMatches intensityWords (lowerList text.toList)

/-- `theory_signals` count of `get_triangulation` (line 54). -/
def theory_signalsCount (text : String) : Nat :=
  countMatches theoryWords (lowerList text.toList)

/-- `contradictions` count of `get_triangulation` (line 56). -/
def contradictionsCount (text : String) : Nat :=
  countMatches contradictionWords (lowerList text.toList)

/-- `user_q = min(10.0, 5.0 + user_intensity)` (line 53). -/
noncomputable def user_qOf (text : String) : ℝ :=
  min 10 (5 + (user_intensityCount text : ℝ))

/-- `science_q = min(10.0, 4.0 + theory_signals)` (line 55) — the
pre-aggregation heuristic value `sq` of `process`. -/
noncomputable def science_q0Of (text : String) : ℝ :=
  min 10 (4 + (theory_signalsCount text : ℝ))

/-- `ai_mental_q = max(1.0, 8.0 - contradictions)` (line 57). -/
noncomputable def ai_mental_qOf (text : String) : ℝ :=
  max 1 (8 - (contradictionsCount text : ℝ))

/-- `UnifiedUEDPEngine.get_triangulation` (lines 51–58). -/
noncomputable def get_triangulation (text : String) : ℝ × ℝ × ℝ :=
  (user_qOf text, science_q0Of text, ai_mental_qOf text)

/-- Market-domain keywords of `detect_domains` (line 64). -/
def marketKeywords : List String :=
  ["market", "stocks", "equity", "index", "returns", "volatility"]

/-- Science-domain keywords of `detect_domains` (line 66). -/
def scienceKeywords : List String :=
  ["risk", "planning", "psychology", "stress", "science", "research"]

/-- Wiki-domain keywords of `detect_domains` (line 68). -/
def wikiKeywords : List String :=
  ["wiki", "information", "wikipedia", "learn"]

/-- Does any keyword of `kws` occur in the lowercased text?  Models
`any(k in text for k in kws)` after `text = text.lower()`. -/
def anyKeywordIn (kws : List String) (text : String) : Bool :=
  kws.any (fun k => isSubstr k.toList (lowerList text.toList))

/-- `UnifiedUEDPEngine.detect_domains` (lines 61–70): domains are appended
in the fixed order market, science, wiki. -/
def detect_domains (text : String) : List String :=
  (if anyKeywordIn marketKeywords text then ["market"] else []) ++
  (if anyKeywordIn scienceKeywords text then ["science"] else []) ++
  (if anyKeywordIn wikiKeywords text then ["wiki"] else [])

/-- The `UEDPIndicatorStack` dataclass (lines 9–37).  Field defaults mirror
the dataclass defaults; `prescriptions` defaults to `[]` (the dataclass
default `None` is never observable: `process` always supplies the list). -/
@[ext]
structure UEDPIndicatorStack where
  turn : Nat
  omega_dyn : ℝ
  i_seq : ℝ
  at_ratio : ℝ
  tau_rsl : ℝ
  agency_sign : String
  strategic_verdict : String
  k_entropy : ℝ := 0
  c_load : ℝ := 0
  s_latency : ℝ := 0
  p_reserve : ℝ := 0
  d_drag : ℝ := 0
  f_noise : ℝ := 0
  r_repair : ℝ := 0
  t_trust : ℝ := 0
  e_exposure : ℝ := 0
  m_momentum : ℝ := 0
  extra1 : ℝ := 0
  extra2 : ℝ := 0
  user_q : ℝ := 0
  science_q : ℝ := 0
  ai_mental_q : ℝ := 0
  market_q : ℝ := 0
  llm_q : ℝ := 0
  prescriptions : List String := []

/-- `omega_ref`: the `__init__` default `0.85`; the only instantiation
(`engine = UnifiedUEDPEngine()`, line 214) uses it. -/
noncomputable def omega_ref : ℝ := 0.85

/-- `self.omega_crit = 0.368` (line 43), never reassigned. -/
noncomputable def omega_crit : ℝ := 0.368

/-- Mutable engine state: the per-instance turn counter (line 44) and
whether `OPENAI_API_KEY` was present at construction (lines 46–48). -/
structure UnifiedUEDPEngine where
  turn : Nat
  openai_key : Bool

/-- `UnifiedUEDPEngine.__init__` with the default `omega_ref`: turn counter
starts at 0; `key` records whether `OPENAI_API_KEY` is set. -/
def UnifiedUEDPEngine.init (key : Bool) : UnifiedUEDPEngine :=
  { turn := 0, openai_key := key }

/-- Outcome of the Alpha Vantage quote call: `failure` covers every path
into the `except:` of `fetch_alpha_vantage` (network error, timeout,
malformed JSON, unparsable price/percent strings); `success` carries the
parsed price and percent change the code reads (a missing field is a
`success` with the coded defaults 100 / 0). -/
inductive MarketResp
  | failure
  | success (price changePct : ℝ)

/-- Outcome of the PubMed esearch call: `success` carries the parsed
result count (a negative parsed count makes `math.log1p` raise, which the
`except:` turns into the same result as `failure`). -/
inductive PubmedResp
  | failure
  | success (count : Nat)

/-- Outcome of the Wikipedia summary call: `success` carries the length of
the `extract` field (missing extract is `success 0`). -/
inductive WikiResp
  | failure
  | success (extractLen : Nat)

/-- Outcome of the OpenAI chat call: `success` carries the completion's
message content. -/
inductive LlmResp
  | failure
  | success (content : String)

/-- One `process` call's view of the external world: the Alpha Vantage
credential (`ALPHA_VANTAGE_KEY`, line 74) and the outcome each external
call would have if issued. -/
structure ExtOutcomes where
  alphaKey : Bool
  market : MarketResp
  pubmed : PubmedResp
  wiki : WikiResp
  llm : LlmResp

/-- `UnifiedUEDPEngine.fetch_alpha_vantage` (lines 73–88): missing key or
any failure yields `(5.0, 0.3)`; otherwise
`volatility = abs(change_pct)/100` and
`market_score = min(10.0, price/100*(1-volatility)*10)`. -/
noncomputable def fetch_alpha_vantage (key : Bool) (resp : MarketResp) : ℝ × ℝ :=
  if key = false then (5.0, 0.3)
  else
    match resp with
    | .failure => (5.0, 0.3)
    | .success price changePct =>
      (min 10 (price / 100 * (1 - |changePct| / 100) * 10), |changePct| / 100)

/-- `UnifiedUEDPEngine.fetch_pubmed_score` (lines 90–99): on failure `3.0`,
on success `min(10.0, math.log1p(count))`. -/
noncomputable def fetch_pubmed_score (resp : PubmedResp) : ℝ :=
  match resp with
  | .failure => 3.0
  | .success count => min 10 (Real.log (1 + (count : ℝ)))

/-- `UnifiedUEDPEngine.fetch_wikipedia_score` (lines 101–109): on failure
`4.0`, on success `min(10.0, len(summary)/200)`. -/
noncomputable def fetch_wikipedia_score (resp : WikiResp) : ℝ :=
  match resp with
  | .failure => 4.0
  | .success extractLen => min 10 ((extractLen : ℝ) / 200)

/-- `UnifiedUEDPEngine.get_high_quality_prescription` (lines 111–131), in
source order: missing key first, then the `omega_dyn >= 0.7` stability
short-circuit, then the guarded OpenAI call with its `except:` fallback;
on success the content is stripped, split on newlines, and each nonempty
stripped line kept. -/
noncomputable def get_high_quality_prescription
    (key : Bool) (stack : UEDPIndicatorStack) (resp : LlmResp) : List String :=
  if key = false then ["LLM API key not set."]
  else if (0.7 : ℝ) ≤ stack.omega_dyn then
    ["System stable. No corrective intervention required."]
  else
    match resp with
    | .failure => ["LLM prescription generation failed."]
    | .success content =>
      ((content.trim.splitOn "\n").map String.trim).filter (fun l => l != "")

/-- The external generative service is actually contacted iff the key is
set and the snapshot's `omega_dyn` falls below 0.7 (only then does
control reach the `openai.ChatCompletion.acreate` call, line 122). -/
def llmServiceContacted (key : Bool) (stack : UEDPIndicatorStack) : Prop :=
  key = true ∧ stack.omega_dyn < 0.7

/-- The market score/volatility pair used by `process` (lines 144–147,
157): the Alpha Vantage fetch when the market domain is selected, otherwise
the inline default `(5.0, 0.3)` without calling the adapter. -/
noncomputable def marketUsed (text : String) (o : ExtOutcomes) : ℝ × ℝ :=
  if "market" ∈ detect_domains text then fetch_alpha_vantage o.alphaKey o.market
  else (5.0, 0.3)

/-- The `science_pub` value used by `process` (lines 148–151, 158): the
PubMed fetch when the science domain is selected, otherwise the inline
default `0.0` without calling the adapter. -/
noncomputable def pubmedUsed (text : String) (o : ExtOutcomes) : ℝ :=
  if "science" ∈ detect_domains text then fetch_pubmed_score o.pubmed
  else 0.0

/-- The `wiki_pub` value used by `process` (lines 152–155, 159): the
Wikipedia fetch when the wiki domain is selected, otherwise the inline
default `0.0` without calling the adapter. -/
noncomputable def wikiUsed (text : String) (o : ExtOutcomes) : ℝ :=
  if "wiki" ∈ detect_domains text then fetch_wikipedia_score o.wiki
  else 0.0

/-- `science_q = min(10.0, sq + science_pub + wiki_pub)` (line 172). -/
noncomputable def science_qOf (text : String) (o : ExtOutcomes) : ℝ :=
  min 10 (science_q0Of text + pubmedUsed text o + wikiUsed text o)

/-- `llm_q = 5.0  # fallback` (line 173): the advisory score is a hardwired
constant. -/
noncomputable def llm_qConst : ℝ := 5.0

/-- `magnitude = uq*0.25 + science_q*0.20 + aiq*0.15 + market_q*0.20 +
llm_q*0.20` (line 175). -/
noncomputable def magnitudeOf (text : String) (o : ExtOutcomes) : ℝ :=
  user_qOf text * 0.25 + science_qOf text o * 0.20 + ai_mental_qOf text * 0.15 +
    (marketUsed text o).1 * 0.20 + llm_qConst * 0.20

/-- `variance = max(0.01, (10.0 - magnitude)/2.0)` (line 176). -/
noncomputable def varianceOf (text : String) (o : ExtOutcomes) : ℝ :=
  max 0.01 ((10.0 - magnitudeOf text o) / 2.0)

/-- `omega_dyn = math.exp(-1.0*(0.4*variance + 0.15))` (line 178). -/
noncomputable def omegaOf (text : String) (o : ExtOutcomes) : ℝ :=
  Real.exp (-(1.0 * (0.4 * varianceOf text o + 0.15)))

/-- `agency = "ANADOS" if omega_dyn >= self.omega_crit else "THANATOS"`
(line 196) as a function of the coherence value. -/
noncomputable def agency_signOf (omega : ℝ) : String :=
  if omega_crit ≤ omega then "ANADOS" else "THANATOS"

/-- The `stack_for_llm` snapshot `process` hands to the advisory generator
(lines 162–169): all indicator fields — including `omega_dyn` — are zero
because coherence has not been computed yet; only the triangulation fields
and `llm_q = 5.0` are filled in. -/
noncomputable def stack_for_llmOf (turn : Nat) (text : String) (o : ExtOutcomes) :
    UEDPIndicatorStack :=
  { turn := turn, omega_dyn := 0, i_seq := 0, at_ratio := 0, tau_rsl := 0,
    agency_sign := "", strategic_verdict := "",
    user_q := user_qOf text, science_q := science_q0Of text,
    ai_mental_q := ai_mental_qOf text,
    market_q := (marketUsed text o).1, llm_q := 5.0 }

/-- `UnifiedUEDPEngine.process` (lines 134–211): increments the turn
counter, triangulates, selects domains, resolves the three external scores
(or their inline defaults), launches the advisory generation on the
zero-coherence snapshot, aggregates magnitude/variance/coherence, derives
the secondary indicators, classifies the agency sign, and returns the
assembled record together with the updated engine state.  The decorative
glyph prefixes of the verdict strings (line 197) are omitted. -/
noncomputable def UnifiedUEDPEngine.process (e : UnifiedUEDPEngine)
    (text : String) (o : ExtOutcomes) : UEDPIndicatorStack × UnifiedUEDPEngine :=
  ({ turn := e.turn + 1
   , omega_dyn := omegaOf text o
   , i_seq := Real.sqrt (varianceOf text o)
   , at_ratio := omegaOf text o / omega_ref * 1.5
   , tau_rsl := omega_ref - omegaOf text o
   , agency_sign := agency_signOf (omegaOf text o)
   , strategic_verdict :=
       if agency_signOf (omegaOf text o) = "ANADOS" then "System Stable"
       else "CAUTION"
   , k_entropy := varianceOf text o * 0.8
   , c_load := (10.0 - ai_mental_qOf text) * 1.2
   , s_latency := (10.0 - magnitudeOf text o) * 0.5
   , p_reserve := science_qOf text o * 0.7
   , d_drag := (10.0 - user_qOf text) * 0.3
   , f_noise := (10.0 - science_qOf text o) * 0.4
   , r_repair := ai_mental_qOf text * 0.6
   , t_trust := user_qOf text * 0.5
   , e_exposure := (10.0 - science_qOf text o) * 1.1
   , m_momentum := omegaOf text o * 2.0
   , extra1 := (marketUsed text o).1 * 0.5
   , extra2 := varianceOf text o * 0.6
   , user_q := user_qOf text
   , science_q := science_qOf text o
   , ai_mental_q := ai_mental_qOf text
   , market_q := (marketUsed text o).1
   , llm_q := llm_qConst
   , prescriptions :=
       get_high_quality_prescription e.openai_key
         (stack_for_llmOf (e.turn + 1) text o) o.llm
   }, { e with turn := e.turn + 1 })

/-- Repeated `process` calls against the same engine (the module-level
singleton `engine`, line 214): each request supplies its text and its
external outcomes; returns the records in call order and the final engine
state. -/
noncomputable def runProcess (e : UnifiedUEDPEngine) :
    List (String × ExtOutcomes) → List UEDPIndicatorStack × UnifiedUEDPEngine
  | [] => ([], e)
  | (t, o) :: rest =>
    ((e.process t o).1 :: (runProcess (e.process t o).2 rest).1,
     (runProcess (e.process t o).2 rest).2)

/-- One POST to the `index` route (lines 289–299) against the global
`(engine, history)` state: Python's `if user_text:` processes only
nonempty text, appending the new record's `omega_dyn` to `history`;
empty text leaves everything untouched and produces no record. -/
noncomputable def indexPost (st : UnifiedUEDPEngine × List ℝ)
    (text : String) (o : ExtOutcomes) :
    Option UEDPIndicatorStack × (UnifiedUEDPEngine × List ℝ) :=
  if text = "" then (none, st)
  else
    (some (st.1.process text o).1,
     ((st.1.process text o).2, st.2 ++ [(st.1.process text o).1.omega_dyn]))

/-- A sequence of POSTs to the `index` route: returns the records actually
produced, in order, and the final `(engine, history)` state. -/
noncomputable def runIndex (st : UnifiedUEDPEngine × List ℝ) :
    List (String × ExtOutcomes) →
      List UEDPIndicatorStack × (UnifiedUEDPEngine × List ℝ)
  | [] => ([], st)
  | (t, o) :: rest =>
    ((indexPost st t o).1.toList ++ (runIndex (indexPost st t o).2 rest).1,
     (runIndex (indexPost st t o).2 rest).2)

/-- `[start, start+1, ..., start+n-1]`: the expected turn numbers of `n`
consecutive `process` calls whose first call sees counter `start`. -/
def turnSeq (start : Nat) : Nat → List Nat
  | 0 => []
  | n + 1 => start :: turnSeq (start + 1) n

/-- All three adapters and the advisory call failing (or lacking
credentials): the Alpha Vantage key is absent and every issued call ends in
the `except:` handler. -/
def allFailOutcomes : ExtOutcomes :=
  { alphaKey := false, market := MarketResp.failure, pubmed := PubmedResp.failure,
    wiki := WikiResp.failure, llm := LlmResp.failure }

/-- Outcomes whose skipped-domain payloads are deliberately non-default, to
exhibit that unselected domains ignore them. -/
def richOutcomes : ExtOutcomes :=
  { alphaKey := true, market := MarketResp.failure,
    pubmed := PubmedResp.success 50, wiki := WikiResp.success 1000,
    llm := LlmResp.failure }

/-- A quote response reporting price 100 and a +200 percent change: a
well-formed payload whose volatility exceeds 1. -/
noncomputable def extremeQuoteOutcomes : ExtOutcomes :=
  { alphaKey := true, market := MarketResp.success 100 200,
    pubmed := PubmedResp.failure, wiki := WikiResp.failure,
    llm := LlmResp.failure }

/-- An indicator snapshot whose coherence 0.8 exceeds the 0.7 stability
threshold of the advisory generator. -/
noncomputable def highCoherenceStack : UEDPIndicatorStack :=
  { turn := 1, omega_dyn := 0.8, i_seq := 0, at_ratio := 0, tau_rsl := 0,
    agency_sign := "", strategic_verdict := "" }

lemma marketUsed_fst_le_ten (text : String) (o : ExtOutcomes) :
    (marketUsed text o).1 ≤ 10 := by
  unfold marketUsed fetch_alpha_vantage
  split
  · split
    · norm_num
    · cases o.market with
      | failure => norm_num
      | success price changePct => exact min_le_left _ _
  · norm_num

lemma marketUsed_fallback (text : String) (o : ExtOutcomes)
    (h : o.alphaKey = false ∨ o.market = MarketResp.failure) :
    (marketUsed text o).1 = 5 := by
  have hf : fetch_alpha_vantage o.alphaKey o.market = (5.0, 0.3) := by
    rcases h with h | h
    · rw [h]
      rfl
    · rw [h]
      cases o.alphaKey <;> rfl
  unfold marketUsed
  split
  · rw [hf]
    norm_num
  · norm_num

lemma pubmedUsed_nonneg (text : String) (o : ExtOutcomes) :
    0 ≤ pubmedUsed text o := by
  unfold pubmedUsed fetch_pubmed_score
  split
  · cases o.pubmed with
    | failure => norm_num
    | success count =>
      refine le_min (by norm_num) (Real.log_nonneg ?_)
      have : (0 : ℝ) ≤ (count : ℝ) := Nat.cast_nonneg count
      linarith
  · norm_num

lemma wikiUsed_nonneg (text : String) (o : ExtOutcomes) :
    0 ≤ wikiUsed text o := by
  unfold wikiUsed fetch_wikipedia_score
  split
  · cases o.wiki with
    | failure => norm_num
    | success extractLen =>
      refine le_min (by norm_num) ?_
      positivity
  · norm_num

lemma science_q0Of_nonneg (text : String) : 0 ≤ science_q0Of text := by
  unfold science_q0Of
  refine le_min (by norm_num) ?_
  have : (0 : ℝ) ≤ (theory_signalsCount text : ℝ) := Nat.cast_nonneg _
  linarith

/-- C1: the variance floor guarantees `variance ≥ 0.01`, hence the coherence
`omega_dyn = exp(-(0.4*variance + 0.15))` lies in `(0,1]`, and `i_seq` is
exactly the square root of the variance (so it is non-negative); none of
these is NaN or negative, for every text and every adapter/advisory
outcome. -/
theorem C1_variance_floor_coherence_unit_interval
    (e : UnifiedUEDPEngine) (text : String) (o : ExtOutcomes) :
    0.01 ≤ varianceOf text o ∧
    0 < (e.process text o).1.omega_dyn ∧
    (e.process text o).1.omega_dyn ≤ 1 ∧
    (e.process text o).1.i_seq = Real.sqrt (varianceOf text o) ∧
    0 ≤ (e.process text o).1.i_seq := by
  have hv : (0.01 : ℝ) ≤ varianceOf text o := le_max_left _ _
  refine ⟨hv, ?_, ?_, rfl, ?_⟩
  · show 0 < omegaOf text o
    exact Real.exp_pos _
  · show omegaOf text o ≤ 1
    unfold omegaOf
    rw [Real.exp_le_one_iff]
    nlinarith
  · show 0 ≤ Real.sqrt (varianceOf text o)
    exact Real.sqrt_nonneg _

/-- C9: an empty submitted text is a no-op for the `index` handler: no
record is produced and the engine/history state is returned unchanged. -/
theorem C9_empty_text_is_no_op
    (e : UnifiedUEDPEngine) (hist : List ℝ) (o : ExtOutcomes) :
    indexPost (e, hist) "" o = (none, (e, hist)) := by
  simp [indexPost]

/-- C2: in every record returned by `process` the agency sign is `ANADOS`
exactly when the coherence is at least the critical threshold 0.368, and
`THANATOS` exactly when it is below; the classification rule assigns
`ANADOS` at the boundary value 0.368 itself. -/
theorem C2_agency_sign_matches_threshold :
    (∀ (e : UnifiedUEDPEngine) (text : String) (o : ExtOutcomes),
      ((e.process text o).1.agency_sign = "ANADOS" ↔
        (0.368 : ℝ) ≤ (e.process text o).1.omega_dyn) ∧
      ((e.process text o).1.agency_sign = "THANATOS" ↔
        (e.process text o).1.omega_dyn < 0.368)) ∧
    agency_signOf 0.368 = "ANADOS" := by
  constructor
  · intro e text o
    show (agency_signOf (omegaOf text o) = "ANADOS" ↔
            (0.368 : ℝ) ≤ omegaOf text o) ∧
         (agency_signOf (omegaOf text o) = "THANATOS" ↔
            omegaOf text o < 0.368)
    unfold agency_signOf omega_crit
    by_cases h : (0.368 : ℝ) ≤ omegaOf text o
    · rw [if_pos h]
      constructor
      · exact ⟨fun _ => h, fun _ => rfl⟩
      · constructor
        · intro hh
          exact absurd hh (by decide)
        · intro hlt
          exact absurd h (not_le.mpr hlt)
    · rw [if_neg h]
      constructor
      · constructor
        · intro hh
          exact absurd hh (by decide)
        · intro hle
          exact absurd hle h
      · exact ⟨fun _ => not_le.mp h, fun _ => rfl⟩
  · unfold agency_signOf omega_crit
    rw [if_pos le_rfl]

/-- C3: when the text selects all three external domains and every adapter
fails, times out, or lacks its credential, `process` still yields a
complete record, with the documented fallback scores in use: market 5.0,
PubMed 3.0, Wikipedia 4.0 (the latter two entering the aggregated
`science_q`). -/
theorem C3_all_adapters_failing_use_fallbacks
    (e : UnifiedUEDPEngine) (text : String) (o : ExtOutcomes)
    (_hm : "market" ∈ detect_domains text)
    (hs : "science" ∈ detect_domains text)
    (hw : "wiki" ∈ detect_domains text)
    (hak : o.alphaKey = false ∨ o.market = MarketResp.failure)
    (hpf : o.pubmed = PubmedResp.failure)
    (hwf : o.wiki = WikiResp.failure) :
    (e.process text o).1.market_q = 5 ∧
    pubmedUsed text o = 3 ∧
    wikiUsed text o = 4 ∧
    (e.process text o).1.science_q = min 10 (science_q0Of text + 3 + 4) := by
  have hp : pubmedUsed text o = 3 := by
    unfold pubmedUsed
    rw [if_pos hs, hpf]
    norm_num [fetch_pubmed_score]
  have hwk : wikiUsed text o = 4 := by
    unfold wikiUsed
    rw [if_pos hw, hwf]
    norm_num [fetch_wikipedia_score]
  refine ⟨marketUsed_fallback text o hak, hp, hwk, ?_⟩
  show science_qOf text o = min 10 (science_q0Of text + 3 + 4)
  unfold science_qOf
  rw [hp, hwk]

/-- C3 witness: the text `"market risk wiki"` selects all three domains;
with no Alpha Vantage key and every call failing, the fallback constants
5.0 / 3.0 / 4.0 are the scores in use. -/
theorem C3_witness :
    ((UnifiedUEDPEngine.init false).process "market risk wiki" allFailOutcomes).1.market_q = 5 ∧
    pubmedUsed "market risk wiki" allFailOutcomes = 3 ∧
    wikiUsed "market risk wiki" allFailOutcomes = 4 ∧
    ((UnifiedUEDPEngine.init false).process "market risk wiki" allFailOutcomes).1.science_q =
      min 10 (science_q0Of "market risk wiki" + 3 + 4) :=
  C3_all_adapters_failing_use_fallbacks (UnifiedUEDPEngine.init false)
    "market risk wiki" allFailOutcomes (by decide) (by decide) (by decide)
    (Or.inl rfl) rfl rfl

/-- C4 counterexample: with coherence 0.8 — above the 0.70 stability
threshold — but no OpenAI key configured, the advisory generator returns
the static key-missing message, not the claimed "no action needed"
message: the key check (line 112) precedes the stability short-circuit
(line 114).  The external service is still not contacted. -/
theorem C4_counterexample :
    (0.7 : ℝ) ≤ highCoherenceStack.omega_dyn ∧
    get_high_quality_prescription false highCoherenceStack LlmResp.failure =
      ["LLM API key not set."] ∧
    (["LLM API key not set."] : List String) ≠
      ["System stable. No corrective intervention required."] ∧
    ¬ llmServiceContacted false highCoherenceStack := by
  refine ⟨by norm_num [highCoherenceStack], ?_, by decide, ?_⟩
  · unfold get_high_quality_prescription
    rw [if_pos rfl]
  · rintro ⟨hk, -⟩
    exact absurd hk (by decide)

/-- C4 amended: whenever the advisory generator is invoked with the OpenAI
key configured and a snapshot whose coherence is at least 0.70, it returns
the single static "no action needed" message and the external generative
service is not contacted (without the key it instead returns the static
key-missing message, likewise without contacting the service). -/
theorem C4_stability_short_circuit
    (stack : UEDPIndicatorStack) (resp : LlmResp)
    (h : (0.7 : ℝ) ≤ stack.omega_dyn) :
    get_high_quality_prescription true stack resp =
      ["System stable. No corrective intervention required."] ∧
    ¬ llmServiceContacted true stack := by
  constructor
  · unfold get_high_quality_prescription
    rw [if_neg (by decide), if_pos h]
  · rintro ⟨-, hlt⟩
    exact absurd h (not_le.mpr hlt)

/-- C4 witness: the short-circuit at the concrete coherence value 0.8. -/
theorem C4_witness :
    get_high_quality_prescription true highCoherenceStack LlmResp.failure =
      ["System stable. No corrective intervention required."] ∧
    ¬ llmServiceContacted true highCoherenceStack :=
  C4_stability_short_circuit highCoherenceStack LlmResp.failure
    (by norm_num [highCoherenceStack])

/-- C5 counterexample: for the text `"hello"` no domain is selected, and
the skipped PubMed and Wikipedia adapters contribute `0.0` to the
aggregation — not their documented failure defaults 3.0 and 4.0 (the
payloads 50 / 1000 of `richOutcomes` are ignored, confirming the adapters
are skipped). -/
theorem C5_counterexample :
    pubmedUsed "hello" richOutcomes = 0 ∧
    wikiUsed "hello" richOutcomes = 0 ∧
    (0 : ℝ) ≠ 3 ∧ (0 : ℝ) ≠ 4 := by
  refine ⟨?_, ?_, by norm_num, by norm_num⟩
  · unfold pubmedUsed
    rw [if_neg (by decide)]
    norm_num
  · unfold wikiUsed
    rw [if_neg (by decide)]
    norm_num

/-- C5 amended: a domain not selected by the classifier has its adapter
skipped and a fixed inline constant used in its place — `(5.0, 0.3)` for
the market domain, but `0.0` (not the adapters' failure defaults 3.0 / 4.0)
for the literature and encyclopedia domains; the external outcome is
ignored entirely. -/
theorem C5_skipped_domains_use_inline_defaults
    (text : String) (o : ExtOutcomes) :
    ("market" ∉ detect_domains text → marketUsed text o = (5.0, 0.3)) ∧
    ("science" ∉ detect_domains text → pubmedUsed text o = 0) ∧
    ("wiki" ∉ detect_domains text → wikiUsed text o = 0) := by
  refine ⟨fun h => ?_, fun h => ?_, fun h => ?_⟩
  · unfold marketUsed
    rw [if_neg h]
  · unfold pubmedUsed
    rw [if_neg h]
    norm_num
  · unfold wikiUsed
    rw [if_neg h]
    norm_num

/-- C5 witness: for `"hello"` (no domain keywords) all three skipped-domain
constants are used, whatever the external payloads would have been. -/
theorem C5_witness :
    marketUsed "hello" richOutcomes = (5.0, 0.3) ∧
    pubmedUsed "hello" richOutcomes = 0 ∧
    wikiUsed "hello" richOutcomes = 0 :=
  ⟨(C5_skipped_domains_use_inline_defaults "hello" richOutcomes).1 (by decide),
   (C5_skipped_domains_use_inline_defaults "hello" richOutcomes).2.1 (by decide),
   (C5_skipped_domains_use_inline_defaults "hello" richOutcomes).2.2 (by decide)⟩

/-- C6 counterexample: the program has a single module-level engine serving
every session, and `process` increments its one shared counter.  After one
call made by a first session, the first call made by any second session
receives turn number 2, not 1 — cross-session turn numbering is not
independent. -/
theorem C6_counterexample :
    ((((UnifiedUEDPEngine.init false).process "first session text" allFailOutcomes).2).process
        "second session first text" richOutcomes).1.turn = 2 ∧
    (2 : Nat) ≠ 1 :=
  ⟨rfl, by decide⟩

/-- C6 amended: on the shared global engine the records of successive
`process` calls carry turn numbers that increase by exactly 1, starting
from one past the engine's current counter (hence 1, 2, 3, … from a fresh
engine); sessions are not distinguished, so a second session's first call
continues the shared count instead of restarting at 1. -/
theorem C6_global_turn_numbering
    (e : UnifiedUEDPEngine) (reqs : List (String × ExtOutcomes)) :
    (runProcess e reqs).1.map (fun r => r.turn) = turnSeq (e.turn + 1) reqs.length := by
  induction reqs generalizing e with
  | nil => rfl
  | cons p rest ih =>
    obtain ⟨t, o⟩ := p
    show (e.process t o).1.turn ::
        ((runProcess (e.process t o).2 rest).1.map (fun r => r.turn)) =
      (e.turn + 1) :: turnSeq (e.turn + 1 + 1) rest.length
    rw [ih]
    rfl

/-- C7: starting from any engine state and history, a run of `index` POSTs
whose texts are all nonempty produces exactly one record per request, and
the final history is the previous history with exactly the coherence
values of those records appended in call order — nothing is removed or
mutated. -/
theorem C7_history_matches_coherence_per_call
    (e : UnifiedUEDPEngine) (hist : List ℝ)
    (reqs : List (String × ExtOutcomes))
    (h : ∀ p ∈ reqs, p.1 ≠ "") :
    (runIndex (e, hist) reqs).1.length = reqs.length ∧
    (runIndex (e, hist) reqs).2.2 =
      hist ++ (runIndex (e, hist) reqs).1.map (fun r => r.omega_dyn) := by
  induction reqs generalizing e hist with
  | nil => simp [runIndex]
  | cons p rest ih =>
    obtain ⟨t, o⟩ := p
    have ht : t ≠ "" := h (t, o) (List.mem_cons_self _ _)
    have hrest : ∀ q ∈ rest, q.1 ≠ "" := fun q hq => h q (List.mem_cons_of_mem _ hq)
    obtain ⟨ihl, ihh⟩ :=
      ih (e.process t o).2 (hist ++ [(e.process t o).1.omega_dyn]) hrest
    have hstep : indexPost (e, hist) t o =
        (some (e.process t o).1,
         ((e.process t o).2, hist ++ [(e.process t o).1.omega_dyn])) := by
      unfold indexPost
      rw [if_neg ht]
    constructor
    · show ((indexPost (e, hist) t o).1.toList ++
          (runIndex (indexPost (e, hist) t o).2 rest).1).length = rest.length + 1
      rw [hstep]
      simp [ihl]
    · show (runIndex (indexPost (e, hist) t o).2 rest).2.2 =
        hist ++ ((indexPost (e, hist) t o).1.toList ++
          (runIndex (indexPost (e, hist) t o).2 rest).1).map (fun r => r.omega_dyn)
      rw [hstep]
      simp only [Option.toList, List.map_cons, List.map_append, List.cons_append,
        List.nil_append]
      rw [ihh]
      simp

/-- C7 witness: one nonempty POST from a fresh state yields one record and
a history holding exactly its coherence value. -/
theorem C7_witness :
    (runIndex (UnifiedUEDPEngine.init false, []) [("hi", allFailOutcomes)]).1.length = 1 ∧
    (runIndex (UnifiedUEDPEngine.init false, []) [("hi", allFailOutcomes)]).2.2 =
      [] ++ (runIndex (UnifiedUEDPEngine.init false, [])
        [("hi", allFailOutcomes)]).1.map (fun r => r.omega_dyn) :=
  C7_history_matches_coherence_per_call (UnifiedUEDPEngine.init false) []
    [("hi", allFailOutcomes)]
    (by
      intro p hp
      rw [List.mem_singleton] at hp
      subst hp
      decide)

/-- C8 counterexample: a well-formed quote payload with price 100 and a
+200 percent change (volatility 2) drives
`market_score = min(10, 100/100*(1-2)*10) = -10`: the market triangulation
quantity in the returned record is negative, outside the claimed `[0,10]`
interval — the score is only capped above, never clamped below. -/
theorem C8_counterexample :
    ((UnifiedUEDPEngine.init false).process "market" extremeQuoteOutcomes).1.market_q < 0 := by
  show (marketUsed "market" extremeQuoteOutcomes).1 < 0
  unfold marketUsed
  rw [if_pos (by decide)]
  rw [show extremeQuoteOutcomes.alphaKey = true from rfl,
    show extremeQuoteOutcomes.market = MarketResp.success 100 200 from rfl]
  have hfetch : fetch_alpha_vantage true (MarketResp.success 100 200) =
      (min 10 (100 / 100 * (1 - |(200 : ℝ)| / 100) * 10), |(200 : ℝ)| / 100) := by
    unfold fetch_alpha_vantage
    rw [if_neg (by decide)]
  rw [hfetch]
  have habs : |(200 : ℝ)| = 200 := abs_of_pos (by norm_num)
  rw [habs]
  have hval : (100 : ℝ) / 100 * (1 - 200 / 100) * 10 = -10 := by norm_num
  rw [hval]
  rw [min_eq_right (by norm_num : (-10 : ℝ) ≤ 10)]
  norm_num

/-- C8 amended: in every returned record the quantities `user_q`,
`science_q`, `ai_mental_q` and `llm_q` do lie in `[0,10]`, and `market_q`
is at most 10 and equals 5.0 whenever the quote is not successfully
fetched; but a successfully fetched quote is only capped above, so
`market_q` has no lower bound (it is negative whenever the reported
percent-change magnitude exceeds 100, or the price is negative). -/
theorem C8_triangulation_bounds
    (e : UnifiedUEDPEngine) (text : String) (o : ExtOutcomes) :
    0 ≤ (e.process text o).1.user_q ∧ (e.process text o).1.user_q ≤ 10 ∧
    0 ≤ (e.process text o).1.science_q ∧ (e.process text o).1.science_q ≤ 10 ∧
    0 ≤ (e.process text o).1.ai_mental_q ∧ (e.process text o).1.ai_mental_q ≤ 10 ∧
    (e.process text o).1.llm_q = 5 ∧
    (e.process text o).1.market_q ≤ 10 ∧
    ((o.alphaKey = false ∨ o.market = MarketResp.failure) →
      (e.process text o).1.market_q = 5) := by
  refine ⟨?_, ?_, ?_, ?_, ?_, ?_, ?_, ?_, ?_⟩
  · show 0 ≤ user_qOf text
    refine le_min (by norm_num) ?_
    have : (0 : ℝ) ≤ (user_intensityCount text : ℝ) := Nat.cast_nonneg _
    linarith
  · exact min_le_left _ _
  · show 0 ≤ science_qOf text o
    refine le_min (by norm_num) ?_
    have h1 := science_q0Of_nonneg text
    have h2 := pubmedUsed_nonneg text o
    have h3 := wikiUsed_nonneg text o
    linarith
  · exact min_le_left _ _
  · show 0 ≤ ai_mental_qOf text
    exact le_trans zero_le_one (le_max_left _ _)
  · show ai_mental_qOf text ≤ 10
    refine max_le (by norm_num) ?_
    have : (0 : ℝ) ≤ (contradictionsCount text : ℝ) := Nat.cast_nonneg _
    linarith
  · show llm_qConst = 5
    norm_num [llm_qConst]
  · exact marketUsed_fst_le_ten text o
  · exact fun h => marketUsed_fallback text o h

/-- C8 witness: with the market call failing, the record's `market_q` is
the in-range fallback 5. -/
theorem C8_witness :
    ((UnifiedUEDPEngine.init false).process "market" allFailOutcomes).1.market_q = 5 :=
  (C8_triangulation_bounds (UnifiedUEDPEngine.init false) "market"
    allFailOutcomes).2.2.2.2.2.2.2.2 (Or.inl rfl)

/-- C10: the advisory score `llm_q` in every returned record is the
hardwired constant 5.0 regardless of advisory availability or output, its
magnitude contribution is exactly `5.0 * 0.20 = 1.0`, and varying only the
OpenAI key and the generative outcome changes nothing in the record but
`prescriptions`. -/
theorem C10_advisory_score_hardwired
    (e : UnifiedUEDPEngine) (k : Bool) (text : String) (o : ExtOutcomes)
    (L : LlmResp) :
    (e.process text o).1.llm_q = 5 ∧
    magnitudeOf text o =
      user_qOf text * 0.25 + science_qOf text o * 0.20 +
        ai_mental_qOf text * 0.15 + (marketUsed text o).1 * 0.20 + 1 ∧
    ({ ({ e with openai_key := k }.process text { o with llm := L }).1 with
        prescriptions := (e.process text o).1.prescriptions } =
      (e.process text o).1) := by
  refine ⟨?_, ?_, ?_⟩
  · show llm_qConst = 5
    norm_num [llm_qConst]
  · unfold magnitudeOf
    norm_num [llm_qConst]
  · rfl
